import Mathlib

/-!
Verification of the RefBook frontend client.

This file gives a shallow embedding of the client-side code of the RefBook
repository (the React/TypeScript sources: `types.ts`, `api.ts`, `App.tsx`,
`ResourcePanel.tsx`, `ShareModal` in `Toast.tsx`, `SharedChat`, `ChatPanel`
with `SourceCard`).  Pure fragments become Lean functions, the React state
hooks become explicit record states with transition functions, and `fetch`
results become an explicit `ApiResponse` value.  Theorems at the end settle
the behavioural claims about this client.
-/

namespace RefBook

/-- Resource lifecycle status, from `types.ts`:
`status: 'pending' | 'processing' | 'ready' | 'error'`. -/
inductive Status where
  | pending
  | processing
  | ready
  | error
deriving DecidableEq, Repr

/-- Resource entity, from `types.ts` (`interface Resource`). -/
structure Resource where
  id : String
  project_id : String
  url : String
  name : String
  status : Status
  chunk_count : Nat
  error_message : Option String
deriving DecidableEq, Repr

/-- Source attribution on an assistant message, from `types.ts`
(`interface Source`); the numeric `score` is modelled as a rational. -/
structure Source where
  url : String
  content : String
  score : ℚ
deriving DecidableEq, Repr

/-- Chat message, from `types.ts` (`interface ChatMessage`). -/
structure ChatMessage where
  role : String
  content : String
  sources : Option (List Source)
deriving DecidableEq, Repr

/-- One entry of `conversation_history`: `{ role, content }` as produced by
`messages.map(m => ({ role: m.role, content: m.content }))`. -/
structure HistoryEntry where
  role : String
  content : String
deriving DecidableEq, Repr

/-- Chat request body, from `types.ts` (`interface ChatRequest`);
`resource_ids := none` models the field being absent from the JSON body
(an `undefined` field is dropped by `JSON.stringify`). -/
structure ChatRequest where
  message : String
  resource_ids : Option (List String)
  conversation_history : List HistoryEntry
deriving DecidableEq, Repr

/-- Chat response body, from `types.ts` (`interface ChatResponse`). -/
structure ChatResponse where
  answer : String
  sources : List Source
deriving DecidableEq, Repr

/-- Project entity, from `types.ts` (`interface Project`). -/
structure Project where
  id : String
  name : String
  description : Option String
deriving DecidableEq, Repr

/-- One resource summary inside `ShareInfo`, from `types.ts`. -/
structure ShareResource where
  id : String
  name : String
  url : String
deriving DecidableEq, Repr

/-- Share info returned by `GET /api/share/{shareId}`, from `types.ts`
(`interface ShareInfo`). -/
structure ShareInfo where
  id : String
  name : String
  project_id : String
  project_name : String
  resources : List ShareResource
deriving DecidableEq, Repr

/-- An abstract HTTP response as observed by the `api.ts` client functions:
`ok` and `status` from the `fetch` response, `detail` the parsed error body
field used in `error.detail || '...'`, and `body` the parsed success payload. -/
structure ApiResponse (α : Type) where
  ok : Bool
  status : Nat
  detail : Option String
  body : α

/-- The main `App` component state (`App.tsx`, the project-aware version):
`useState` hooks for projects, current project, resources, selection,
messages, loading flag and error banner text. -/
structure AppState where
  projects : List Project
  currentProject : Option Project
  resources : List Resource
  selectedResources : List String
  messages : List ChatMessage
  isLoading : Bool
  error : Option String
deriving DecidableEq, Repr

/-- `m => ({ role: m.role, content: m.content })` from the
`conversation_history` mapping in both `handleSendMessage` functions. -/
def stripMessage (m : ChatMessage) : HistoryEntry :=
  { role := m.role, content := m.content }

/-- `const userMessage: ChatMessage = { role: 'user', content };` -/
def userMessage (content : String) : ChatMessage :=
  { role := "user", content := content, sources := none }

/-- `{ role: 'assistant', content: response.answer, sources: response.sources }` -/
def assistantMessage (resp : ChatResponse) : ChatMessage :=
  { role := "assistant", content := resp.answer, sources := some resp.sources }

/-- The request body built by `App.handleSendMessage` (`App.tsx`):
`{ message: content, resource_ids: selectedResources.length > 0 ?
selectedResources : undefined, conversation_history: messages.map(...) }`.
Note that `messages` is the closure value, i.e. the list *before* the user
message is appended by `setMessages`. -/
def chatRequestOf (st : AppState) (content : String) : ChatRequest :=
  { message := content
    resource_ids :=
      if st.selectedResources.length > 0 then some st.selectedResources else none
    conversation_history := st.messages.map stripMessage }

/-- JavaScript `a || b` on the string `a = error.detail`: `none` (missing
field) and the empty string are falsy and select the fallback. -/
def jsStringOr : Option String → String → String
  | some s, dflt => if s = "" then dflt else s
  | none, dflt => dflt

/-- `api.ts` `sendMessage`: on a non-ok response it throws
`new Error(error.detail || 'Failed to send message')`, otherwise it returns
the parsed `ChatResponse`. -/
def sendMessage (resp : ApiResponse ChatResponse) : Except String ChatResponse :=
  if resp.ok then Except.ok resp.body
  else Except.error (jsStringOr resp.detail "Failed to send message")

/-- `App.handleSendMessage` (`App.tsx`): returns the successor state together
with the request that was POSTed (`none` when no request is issued because
`currentProject` is null).  The user message is appended first; on success the
assistant message is appended as well; on failure only the error banner is
set. -/
def handleSendMessage (st : AppState) (content : String)
    (apiResult : Except String ChatResponse) : AppState × Option ChatRequest :=
  match st.currentProject with
  | none => (st, none)
  | some _ =>
    let sent := chatRequestOf st content
    let st1 := { st with messages := st.messages ++ [userMessage content],
                         isLoading := true, error := none }
    match apiResult with
    | Except.ok resp =>
        ({ st1 with messages := st1.messages ++ [assistantMessage resp],
                    isLoading := false }, some sent)
    | Except.error e =>
        ({ st1 with error := some e, isLoading := false }, some sent)

/-- The error banner of `App.tsx`: the render shows the `error` state text
whenever it is non-null (`{error && <div ...>{error}...}`). -/
def errorBanner (st : AppState) : Option String := st.error

/-- `SourceCard.getRelevancePercent` (`ChatPanel.tsx`):
`Math.round(Math.max(0, Math.min(100, score * 100)))`; Mathlib `round` on ℚ
is `⌊x + 1/2⌋`, which agrees with JavaScript `Math.round` on this range. -/
def getRelevancePercent (score : ℚ) : ℤ :=
  round (max 0 (min 100 (score * 100)))

/-- HTTP method of an endpoint called by `api.ts`. -/
inductive Method where
  | GET
  | POST
deriving DecidableEq, Repr

/-- An API call the shared-chat page can issue: `fetchShareInfo` and
`sendShareMessage` are the only `api.ts` functions imported by the
`SharedChat` component. -/
inductive ShareApiCall where
  | fetchShareInfoCall (shareId : String)
  | sendShareMessageCall (shareId : String) (req : ChatRequest)
deriving DecidableEq, Repr

/-- Method and URL of each share API call, from `api.ts`: `fetchShareInfo`
issues a GET of `/api/share/` followed by the share id, and
`sendShareMessage` issues a POST of that URL followed by `/chat`. -/
def endpointOf : ShareApiCall → Method × String
  | ShareApiCall.fetchShareInfoCall sid => (Method.GET, "/api/share/" ++ sid)
  | ShareApiCall.sendShareMessageCall sid _ =>
      (Method.POST, "/api/share/" ++ sid ++ "/chat")

/-- The `SharedChat` component state: `useState` hooks for the resolved
share info, the message list, the loading flag, the error banner text and
the initial-loading flag. -/
structure SharedChatState where
  shareInfo : Option ShareInfo
  messages : List ChatMessage
  isLoading : Bool
  error : Option String
  initialLoading : Bool
deriving DecidableEq, Repr

/-- The request body built by `SharedChat.handleSendMessage`: only `message`
and `conversation_history` are set; there is no `resource_ids` field in the
object literal. -/
def shareChatRequest (content : String) (messages : List ChatMessage) :
    ChatRequest :=
  { message := content
    resource_ids := none
    conversation_history := messages.map stripMessage }

/-- The user-visible actions available on the shared-chat page. -/
inductive SharedChatAction where
  | mount
  | send (content : String)
  | clearChat
  | dismissError
deriving DecidableEq, Repr

/-- The API calls `SharedChat` issues per action: mounting runs
`loadShareInfo` (a single `fetchShareInfo`), sending a message runs a single
`sendShareMessage`, and clearing the chat or dismissing the error banner
calls nothing. -/
def sharedChatCalls (shareId : String) (st : SharedChatState) :
    SharedChatAction → List ShareApiCall
  | SharedChatAction.mount => [ShareApiCall.fetchShareInfoCall shareId]
  | SharedChatAction.send content =>
      [ShareApiCall.sendShareMessageCall shareId
        (shareChatRequest content st.messages)]
  | SharedChatAction.clearChat => []
  | SharedChatAction.dismissError => []

/-- `api.ts` `fetchShareInfo`: a non-ok response throws, with the message
"Share link not found or expired" when the HTTP status is 404 and
"Failed to fetch share info" otherwise. -/
def fetchShareInfo (resp : ApiResponse ShareInfo) : Except String ShareInfo :=
  if resp.ok then Except.ok resp.body
  else if resp.status = 404 then Except.error "Share link not found or expired"
  else Except.error "Failed to fetch share info"

/-- `SharedChat.loadShareInfo`: stores the share info on success, stores the
error message on failure, and clears `initialLoading` in both cases. -/
def loadShareInfo (st : SharedChatState) (result : Except String ShareInfo) :
    SharedChatState :=
  match result with
  | Except.ok info => { st with shareInfo := some info, initialLoading := false }
  | Except.error e => { st with error := some e, initialLoading := false }

/-- What the `SharedChat` component renders: the loading screen, the
not-found screen (which shows only an error sentence and a home link — no
project or resource information), or the chat interface of a resolved
share. -/
inductive SharedChatView where
  | loading
  | notFound (errorText : String)
  | chat (info : ShareInfo)
deriving DecidableEq, Repr

/-- The top-level branching of the `SharedChat` render: `initialLoading`
renders the loader; a null `shareInfo` renders the not-found view showing
the stored error text (or the default sentence); otherwise the chat
interface is rendered. -/
def renderSharedChat (st : SharedChatState) : SharedChatView :=
  if st.initialLoading then SharedChatView.loading
  else
    match st.shareInfo with
    | none =>
        SharedChatView.notFound
          (st.error.getD "This share link may have expired or been deleted.")
    | some info => SharedChatView.chat info

/-- The stop/continue test inside `App.pollResourceStatus.checkStatus`:
polling is rescheduled exactly when the fetched list contains the polled
resource and its status is still `processing`. -/
def checkStatusContinues (data : List Resource) (rid : String) : Bool :=
  match data.find? (fun r => r.id == rid) with
  | some r => decide (r.status = Status.processing)
  | none => false

/-- The `setTimeout` schedule of `App.pollResourceStatus`: given the polled
resource id, the successive fetch results, and the trigger time, the list
of instants (in ms) at which `checkStatus` re-fetches the resource list.
The first fetch runs 2000 ms after the trigger, and each `checkStatus`
reschedules itself another 2000 ms later while the resource is still
processing. -/
def pollResourceStatus (rid : String) :
    List (List Resource) → Nat → List Nat
  | [], _ => []
  | data :: rest, now =>
      (now + 2000) ::
        (if checkStatusContinues data rid then
          pollResourceStatus rid rest (now + 2000)
        else [])

/-- `App.handleAddResource`: on success the new resource is appended and
polling starts for its id (second component); on failure the error banner
is set and no polling starts. -/
def handleAddResource (st : AppState) (result : Except String Resource) :
    AppState × Option String :=
  match st.currentProject with
  | none => (st, none)
  | some _ =>
    match result with
    | Except.ok r =>
        ({ st with resources := st.resources ++ [r], error := none }, some r.id)
    | Except.error e => ({ st with error := some e }, none)

/-- `App.handleRefreshResource`: on success the resource is replaced in the
list and polling starts for its id; on failure the error banner is set. -/
def handleRefreshResource (st : AppState) (id : String)
    (result : Except String Resource) : AppState × Option String :=
  match st.currentProject with
  | none => (st, none)
  | some _ =>
    match result with
    | Except.ok updated =>
        ({ st with resources :=
            st.resources.map (fun r => if r.id == id then updated else r) },
          some id)
    | Except.error e => ({ st with error := some e }, none)

/-- `readyResourceCount` from `App.tsx`: the number of resources whose
status is `ready`. -/
def readyResourceCount (resources : List Resource) : Nat :=
  (resources.filter (fun r => decide (r.status = Status.ready))).length

/-- The sidebar share button of `App.tsx` is disabled exactly when
`readyResourceCount` is zero. -/
def shareButtonDisabled (resources : List Resource) : Bool :=
  decide (readyResourceCount resources = 0)

/-- The create button of `ShareModal` is disabled while creating or when
the passed `resourceCount` is zero; `App` passes
`resourceCount={readyResourceCount}`. -/
def createShareButtonDisabled (isCreating : Bool) (resourceCount : Nat) : Bool :=
  isCreating || decide (resourceCount = 0)

/-- `ResourcePanel.isResourceBusy`: the resource is being refreshed, being
deleted, or is `processing`. -/
def isResourceBusy (refreshingIds deletingIds : List String) (r : Resource) :
    Bool :=
  refreshingIds.contains r.id || deletingIds.contains r.id
    || decide (r.status = Status.processing)

/-- `App.handleToggleResource`: remove the id if already selected, append
it otherwise. -/
def handleToggleResource (selected : List String) (id : String) :
    List String :=
  if selected.contains id then selected.filter (fun rid => rid != id)
  else selected ++ [id]

/-- The client state relevant to resource selection: the resource list and
the selection of `App`, plus the busy-id sets held by `ResourcePanel`. -/
structure UIState where
  resources : List Resource
  selected : List String
  refreshingIds : List String
  deletingIds : List String
deriving DecidableEq, Repr

/-- The guard on a resource row click in `ResourcePanel`: the row belongs
to the rendered list and the click fires `onToggle` only when
the status is `ready` and the resource is not busy. -/
def clickGuard (st : UIState) (r : Resource) : Bool :=
  decide (r ∈ st.resources) && decide (r.status = Status.ready)
    && !(isResourceBusy st.refreshingIds st.deletingIds r)

/-- The events that touch the resource list, the selection, or the busy-id
sets of the panel. -/
inductive UIEvent where
  | clickResource (r : Resource)
  | deleteSuccess (id : String)
  | refreshStart (id : String)
  | refreshEnd (id : String)
  | deleteStart (id : String)
  | deleteEnd (id : String)
  | setResources (data : List Resource)
deriving DecidableEq, Repr

/-- One step of the selection-relevant client behaviour: a click toggles
the selection only under `clickGuard`; a successful deletion
(`App.handleDeleteResource`) filters the id out of both the resource list
and the selection; the remaining events only maintain the busy sets of
`ResourcePanel` or replace the fetched resource list. -/
def step (st : UIState) : UIEvent → UIState
  | UIEvent.clickResource r =>
      if clickGuard st r then
        { st with selected := handleToggleResource st.selected r.id }
      else st
  | UIEvent.deleteSuccess id =>
      { st with resources := st.resources.filter (fun r => r.id != id),
                selected := st.selected.filter (fun rid => rid != id) }
  | UIEvent.refreshStart id =>
      { st with refreshingIds := st.refreshingIds ++ [id] }
  | UIEvent.refreshEnd id =>
      { st with refreshingIds := st.refreshingIds.filter (fun x => x != id) }
  | UIEvent.deleteStart id =>
      { st with deletingIds := st.deletingIds ++ [id] }
  | UIEvent.deleteEnd id =>
      { st with deletingIds := st.deletingIds.filter (fun x => x != id) }
  | UIEvent.setResources data => { st with resources := data }

/-- Run a list of events from a state. -/
def run (st : UIState) : List UIEvent → UIState
  | [] => st
  | e :: rest => run (step st e) rest

/-- The `useEffect` on the current project id in `App.tsx`: selecting a
project clears the conversation and the selection (resources are then
re-fetched); deselecting all projects empties the resource list. -/
def onProjectChange (st : AppState) (newProject : Option Project) : AppState :=
  match newProject with
  | some p =>
      { st with currentProject := some p, messages := [],
                selectedResources := [] }
  | none => { st with currentProject := none, resources := [] }

/-- Claim C2: for every chat request the client sends, `resource_ids` is
present and equal to exactly the selected-resource list when that list is
non-empty, and entirely absent when no resource is selected. -/
theorem c2 (st : AppState) (content : String) (apiResult : Except String ChatResponse)
    (p : Project) (req : ChatRequest)
    (hp : st.currentProject = some p)
    (hreq : (handleSendMessage st content apiResult).2 = some req) :
    (st.selectedResources ≠ [] → req.resource_ids = some st.selectedResources)
    ∧ (st.selectedResources = [] → req.resource_ids = none) := by
  have hr : req = chatRequestOf st content := by
    unfold handleSendMessage at hreq
    rw [hp] at hreq
    cases apiResult <;> simpa using hreq.symm
  subst hr
  constructor
  · intro hne
    simp [chatRequestOf, List.length_pos.mpr hne]
  · intro he
    simp [chatRequestOf, he]

/-- Witness for C2 at a concrete state with one selected resource. -/
theorem c2_witness :
    (chatRequestOf
        ⟨[], some ⟨"p1", "P", none⟩, [], ["r1"], [], false, none⟩
        "hello").resource_ids = some ["r1"] :=
  (c2 ⟨[], some ⟨"p1", "P", none⟩, [], ["r1"], [], false, none⟩
      "hello" (Except.error "boom") ⟨"p1", "P", none⟩ _ rfl rfl).1 (by simp)

/-- Claim C3: the relevance percentage rendered by `SourceCard` equals
`round (max 0 (min 100 (score * 100)))`, always lies in `[0, 100]`, and for
`score ∈ [0, 1]` equals `round (score * 100)` — scores are clamped before
percentage conversion. -/
theorem c3 (score : ℚ) :
    getRelevancePercent score = round (max 0 (min 100 (score * 100)))
    ∧ 0 ≤ getRelevancePercent score
    ∧ getRelevancePercent score ≤ 100
    ∧ (0 ≤ score → score ≤ 1 → getRelevancePercent score = round (score * 100)) := by
  refine ⟨rfl, ?_, ?_, ?_⟩
  · unfold getRelevancePercent
    rw [round_eq]
    apply Int.le_floor.mpr
    have h0 : (0 : ℚ) ≤ max 0 (min 100 (score * 100)) := le_max_left _ _
    push_cast
    linarith
  · unfold getRelevancePercent
    rw [round_eq]
    have h1 : max 0 (min 100 (score * 100)) ≤ 100 :=
      max_le (by norm_num) (min_le_left _ _)
    have h2 : ⌊max 0 (min 100 (score * 100)) + 1 / 2⌋ ≤ ⌊(100 : ℚ) + 1 / 2⌋ :=
      Int.floor_le_floor (by linarith)
    have h3 : ⌊(100 : ℚ) + 1 / 2⌋ = 100 := by
      rw [Int.floor_eq_iff]
      norm_num
    omega
  · intro hs0 hs1
    unfold getRelevancePercent
    have hle : score * 100 ≤ 100 := by linarith
    have hge : (0 : ℚ) ≤ score * 100 := by positivity
    rw [min_eq_right hle, max_eq_right hge]

/-- Witness for C3: at `score = 1/2` the clamp is the identity and the
rendered percentage is `round 50`. -/
theorem c3_witness :
    getRelevancePercent (1 / 2) = round ((1 / 2 : ℚ) * 100) :=
  (c3 (1 / 2)).2.2.2 (by norm_num) (by norm_num)

/-- Claim C1: every chat request issued from the shared-chat page carries
only the message and the conversation history (never a `resource_ids`
filter), and the only endpoints the page calls are
GET `/api/share/{shareId}` and POST `/api/share/{shareId}/chat` — no write
operation is ever invoked. -/
theorem c1 (shareId : String) (st : SharedChatState) (a : SharedChatAction)
    (c : ShareApiCall) (hc : c ∈ sharedChatCalls shareId st a) :
    (endpointOf c = (Method.GET, "/api/share/" ++ shareId)
      ∨ endpointOf c = (Method.POST, "/api/share/" ++ shareId ++ "/chat"))
    ∧ (∀ sid req, c = ShareApiCall.sendShareMessageCall sid req →
        req.resource_ids = none
        ∧ req.conversation_history = st.messages.map stripMessage) := by
  cases a with
  | mount =>
    simp only [sharedChatCalls, List.mem_singleton] at hc
    subst hc
    refine ⟨Or.inl rfl, ?_⟩
    intro sid req h
    simp at h
  | send content =>
    simp only [sharedChatCalls, List.mem_singleton] at hc
    subst hc
    refine ⟨Or.inr rfl, ?_⟩
    intro sid req h
    injection h with h1 h2
    subst h2
    exact ⟨rfl, rfl⟩
  | clearChat => simp [sharedChatCalls] at hc
  | dismissError => simp [sharedChatCalls] at hc

/-- Witness for C1: the chat request the shared-chat page sends at a
concrete state has no `resource_ids` and carries the stripped history. -/
theorem c1_witness :
    (shareChatRequest "hi" []).resource_ids = none
    ∧ (shareChatRequest "hi" []).conversation_history
        = ([] : List ChatMessage).map stripMessage :=
  (c1 "s1" ⟨none, [], false, none, true⟩ (SharedChatAction.send "hi")
      (ShareApiCall.sendShareMessageCall "s1" (shareChatRequest "hi" []))
      (by simp [sharedChatCalls])).2 "s1" (shareChatRequest "hi" []) rfl

/-- Claim C5: a non-ok response to GET `/api/share/{shareId}` makes
`fetchShareInfo` raise an error — with the message
"Share link not found or expired" exactly when the status is 404 — and the
shared-chat page then renders the not-found view (which carries only the
error text), never the chat interface. -/
theorem c5 (resp : ApiResponse ShareInfo) (st : SharedChatState)
    (hok : resp.ok = false) (hinfo : st.shareInfo = none) :
    ∃ msg, fetchShareInfo resp = Except.error msg
      ∧ (msg = "Share link not found or expired" ↔ resp.status = 404)
      ∧ renderSharedChat (loadShareInfo st (fetchShareInfo resp))
          = SharedChatView.notFound msg
      ∧ (∀ info, renderSharedChat (loadShareInfo st (fetchShareInfo resp))
          ≠ SharedChatView.chat info) := by
  by_cases h404 : resp.status = 404
  · refine ⟨"Share link not found or expired", ?_, by simp [h404], ?_, ?_⟩
    · simp [fetchShareInfo, hok, h404]
    · simp [fetchShareInfo, hok, h404, loadShareInfo, renderSharedChat, hinfo]
    · intro info
      simp [fetchShareInfo, hok, h404, loadShareInfo, renderSharedChat, hinfo]
  · refine ⟨"Failed to fetch share info", ?_, ?_, ?_, ?_⟩
    · simp [fetchShareInfo, hok, h404]
    · constructor
      · intro h
        exact absurd h (by decide)
      · intro h
        exact absurd h h404
    · simp [fetchShareInfo, hok, h404, loadShareInfo, renderSharedChat, hinfo]
    · intro info
      simp [fetchShareInfo, hok, h404, loadShareInfo, renderSharedChat, hinfo]

/-- Witness for C5 at a concrete 404 response and fresh page state. -/
theorem c5_witness :
    ∃ msg,
      fetchShareInfo
          (⟨false, 404, none, ⟨"", "", "", "", []⟩⟩ : ApiResponse ShareInfo)
        = Except.error msg
      ∧ (msg = "Share link not found or expired"
          ↔ (⟨false, 404, none, ⟨"", "", "", "", []⟩⟩ :
              ApiResponse ShareInfo).status = 404)
      ∧ renderSharedChat
          (loadShareInfo ⟨none, [], false, none, true⟩
            (fetchShareInfo
              (⟨false, 404, none, ⟨"", "", "", "", []⟩⟩ : ApiResponse ShareInfo)))
          = SharedChatView.notFound msg
      ∧ (∀ info,
          renderSharedChat
            (loadShareInfo ⟨none, [], false, none, true⟩
              (fetchShareInfo
                (⟨false, 404, none, ⟨"", "", "", "", []⟩⟩ : ApiResponse ShareInfo)))
            ≠ SharedChatView.chat info) :=
  c5 ⟨false, 404, none, ⟨"", "", "", "", []⟩⟩ ⟨none, [], false, none, true⟩ rfl rfl

/-- Claim C6: when the chat request rejects with a non-ok response, the
client raises an error carrying the detail message from the server, stores
and displays it in the error banner, and the only change to the message
list is the user message itself, which remains for a retry — no assistant
message is appended. -/
theorem c6 (st : AppState) (content : String) (p : Project)
    (resp : ApiResponse ChatResponse)
    (hp : st.currentProject = some p) (hok : resp.ok = false) :
    ∃ msg, sendMessage resp = Except.error msg
      ∧ (handleSendMessage st content (sendMessage resp)).1.error = some msg
      ∧ errorBanner (handleSendMessage st content (sendMessage resp)).1 = some msg
      ∧ (handleSendMessage st content (sendMessage resp)).1.messages
          = st.messages ++ [userMessage content]
      ∧ (∀ d, resp.detail = some d → d ≠ "" → msg = d) := by
  refine ⟨jsStringOr resp.detail "Failed to send message", ?_, ?_, ?_, ?_, ?_⟩
  · simp [sendMessage, hok]
  · unfold handleSendMessage
    rw [hp]
    simp [sendMessage, hok]
  · unfold handleSendMessage errorBanner
    rw [hp]
    simp [sendMessage, hok]
  · unfold handleSendMessage
    rw [hp]
    simp [sendMessage, hok]
  · intro d hd hne
    simp [jsStringOr, hd, hne]

/-- Witness for C6 at a concrete failing response carrying a detail
message. -/
theorem c6_witness :
    ∃ msg,
      sendMessage
          (⟨false, 500, some "generation failed", ⟨"", []⟩⟩ :
            ApiResponse ChatResponse)
        = Except.error msg
      ∧ (handleSendMessage
            ⟨[], some ⟨"p1", "P", none⟩, [], [], [], false, none⟩ "hi"
            (sendMessage
              (⟨false, 500, some "generation failed", ⟨"", []⟩⟩ :
                ApiResponse ChatResponse))).1.error = some msg
      ∧ errorBanner
          (handleSendMessage
            ⟨[], some ⟨"p1", "P", none⟩, [], [], [], false, none⟩ "hi"
            (sendMessage
              (⟨false, 500, some "generation failed", ⟨"", []⟩⟩ :
                ApiResponse ChatResponse))).1 = some msg
      ∧ (handleSendMessage
            ⟨[], some ⟨"p1", "P", none⟩, [], [], [], false, none⟩ "hi"
            (sendMessage
              (⟨false, 500, some "generation failed", ⟨"", []⟩⟩ :
                ApiResponse ChatResponse))).1.messages
          = ([] : List ChatMessage) ++ [userMessage "hi"]
      ∧ (∀ d,
          (⟨false, 500, some "generation failed", ⟨"", []⟩⟩ :
            ApiResponse ChatResponse).detail = some d → d ≠ "" → msg = d) :=
  c6 ⟨[], some ⟨"p1", "P", none⟩, [], [], [], false, none⟩ "hi" ⟨"p1", "P", none⟩
    ⟨false, 500, some "generation failed", ⟨"", []⟩⟩ rfl rfl

/-- Claim C7: for project chat and share chat alike, `conversation_history`
is the list of all prior messages in chronological order (most recent
last), each reduced to role and content, and the message being sent travels
in the `message` field, not as an extra history entry. -/
theorem c7 (st : AppState) (content : String)
    (apiResult : Except String ChatResponse) (p : Project) (req : ChatRequest)
    (hp : st.currentProject = some p)
    (hreq : (handleSendMessage st content apiResult).2 = some req) :
    req.conversation_history = st.messages.map stripMessage
    ∧ req.conversation_history.length = st.messages.length
    ∧ (∀ i (hi : i < req.conversation_history.length)
        (hi' : i < st.messages.length),
        req.conversation_history.get ⟨i, hi⟩
          = stripMessage (st.messages.get ⟨i, hi'⟩))
    ∧ req.message = content
    ∧ (shareChatRequest content st.messages).conversation_history
        = st.messages.map stripMessage := by
  have hr : req = chatRequestOf st content := by
    unfold handleSendMessage at hreq
    rw [hp] at hreq
    cases apiResult <;> simpa using hreq.symm
  subst hr
  refine ⟨rfl, by simp [chatRequestOf], ?_, rfl, rfl⟩
  intro i hi hi'
  simp [chatRequestOf]

/-- Witness for C7 at a concrete two-message conversation. -/
theorem c7_witness :
    (chatRequestOf
        ⟨[], some ⟨"p1", "P", none⟩, [], [],
          [⟨"user", "q", none⟩, ⟨"assistant", "a", some []⟩], false, none⟩
        "next").conversation_history
      = [(⟨"user", "q", none⟩ : ChatMessage),
          ⟨"assistant", "a", some []⟩].map stripMessage :=
  (c7 ⟨[], some ⟨"p1", "P", none⟩, [], [],
        [⟨"user", "q", none⟩, ⟨"assistant", "a", some []⟩], false, none⟩
      "next" (Except.error "boom") ⟨"p1", "P", none⟩ _ rfl rfl).1

/-- The first `checkStatus` fetch of a poll always runs 2000 ms after the
trigger. -/
lemma pollResourceStatus_head (rid : String) (d : List Resource)
    (rest : List (List Resource)) (t : Nat) :
    (pollResourceStatus rid (d :: rest) t).head? = some (t + 2000) := by
  simp [pollResourceStatus]

/-- Consecutive fetches of a poll are 2000 ms apart. -/
lemma pollResourceStatus_chain (rid : String) :
    ∀ (fetches : List (List Resource)) (t : Nat),
      List.Chain' (fun a b => b = a + 2000) (pollResourceStatus rid fetches t) := by
  intro fetches
  induction fetches with
  | nil =>
    intro t
    simp [pollResourceStatus]
  | cons d rest ih =>
    intro t
    by_cases h : checkStatusContinues d rid = true
    · simp only [pollResourceStatus, h, if_true]
      rw [List.chain'_cons']
      refine ⟨?_, ih (t + 2000)⟩
      intro b hb
      cases rest with
      | nil => simp [pollResourceStatus] at hb
      | cons d2 r2 =>
        rw [pollResourceStatus_head rid d2 r2 (t + 2000)] at hb
        simp at hb
        omega
    · rw [Bool.not_eq_true] at h
      simp [pollResourceStatus, h]

/-- A poll performs fetches up to and including the first one on which the
resource has left `processing` (or disappeared), and at most one per fetch
result. -/
lemma pollResourceStatus_length (rid : String) :
    ∀ (fetches : List (List Resource)) (t : Nat),
      (pollResourceStatus rid fetches t).length
        = min fetches.length
            ((fetches.takeWhile (fun d => checkStatusContinues d rid)).length + 1) := by
  intro fetches
  induction fetches with
  | nil =>
    intro t
    simp [pollResourceStatus]
  | cons d rest ih =>
    intro t
    by_cases h : checkStatusContinues d rid = true
    · simp only [pollResourceStatus, h, if_true, List.length_cons,
        List.takeWhile_cons]
      rw [ih (t + 2000)]
      omega
    · rw [Bool.not_eq_true] at h
      simp only [pollResourceStatus, h, if_false, List.takeWhile_cons,
        Bool.false_eq_true, List.length_cons, List.length_nil]
      omega

/-- Claim C4: after a successful add or refresh the client schedules a
status re-fetch 2000 ms later, keeps re-fetching every 2000 ms while the
fetched status is `processing`, and stops as soon as the fetched status is
anything else (including `pending`) or the resource is missing from the
fetched list. -/
theorem c4 (rid : String) (fetches : List (List Resource)) (t : Nat) :
    (fetches ≠ [] → (pollResourceStatus rid fetches t).head? = some (t + 2000))
    ∧ List.Chain' (fun a b => b = a + 2000) (pollResourceStatus rid fetches t)
    ∧ (pollResourceStatus rid fetches t).length
        = min fetches.length
            ((fetches.takeWhile (fun d => checkStatusContinues d rid)).length + 1)
    ∧ (∀ data r, data.find? (fun x => x.id == rid) = some r →
        r.status ≠ Status.processing → checkStatusContinues data rid = false)
    ∧ (∀ data, data.find? (fun x => x.id == rid) = none →
        checkStatusContinues data rid = false)
    ∧ (∀ st p r, st.currentProject = some p →
        (handleAddResource st (Except.ok r)).2 = some r.id)
    ∧ (∀ st p id u, st.currentProject = some p →
        (handleRefreshResource st id (Except.ok u)).2 = some id) := by
  refine ⟨?_, pollResourceStatus_chain rid fetches t,
    pollResourceStatus_length rid fetches t, ?_, ?_, ?_, ?_⟩
  · intro hne
    cases fetches with
    | nil => exact absurd rfl hne
    | cons d rest => exact pollResourceStatus_head rid d rest t
  · intro data r hf hs
    unfold checkStatusContinues
    rw [hf]
    simp [hs]
  · intro data hf
    unfold checkStatusContinues
    rw [hf]
  · intro st p r hp
    unfold handleAddResource
    rw [hp]
  · intro st p id u hp
    unfold handleRefreshResource
    rw [hp]

/-- Witness for C4: a single fetch showing a `ready` resource happens
2000 ms after the trigger (and, being `ready`, ends the poll). -/
theorem c4_witness :
    (pollResourceStatus "r1"
        [[(⟨"r1", "p1", "u", "n", Status.ready, 3, none⟩ : Resource)]]
        0).head? = some (0 + 2000) :=
  (c4 "r1" [[(⟨"r1", "p1", "u", "n", Status.ready, 3, none⟩ : Resource)]] 0).1
    (by simp)

/-- Claim C8: the share-modal create button and the sidebar share button
are enabled only when the ready-resource count is positive, so every
`createShare` call made by the UI happens with at least one ready
resource. -/
theorem c8 (resources : List Resource) (isCreating : Bool) :
    (createShareButtonDisabled isCreating (readyResourceCount resources) = false →
      0 < readyResourceCount resources)
    ∧ (shareButtonDisabled resources = false → 0 < readyResourceCount resources) := by
  constructor
  · intro h
    simp [createShareButtonDisabled] at h
    exact Nat.pos_of_ne_zero h.2
  · intro h
    simp [shareButtonDisabled] at h
    exact Nat.pos_of_ne_zero h

/-- Witness for C8: with one ready resource the create button is enabled
and the count is positive. -/
theorem c8_witness :
    0 < readyResourceCount [(⟨"r1", "p1", "u", "n", Status.ready, 3, none⟩ : Resource)] :=
  (c8 [(⟨"r1", "p1", "u", "n", Status.ready, 3, none⟩ : Resource)] false).1
    (by decide)

/-- Every id in the selection after a run of events either was already
selected or was added by a click that passed the ready-and-not-busy
guard at that moment. -/
lemma selected_provenance :
    ∀ (events : List UIEvent) (st : UIState) (id : String),
      id ∈ (run st events).selected →
      id ∈ st.selected
      ∨ ∃ pre r post, events = pre ++ UIEvent.clickResource r :: post
          ∧ r.id = id ∧ clickGuard (run st pre) r = true := by
  intro events
  induction events with
  | nil =>
    intro st id h
    exact Or.inl h
  | cons e rest ih =>
    intro st id h
    rcases ih (step st e) id h with hsel | ⟨pre, r, post, hev, hid, hg⟩
    · cases e with
      | clickResource r =>
        by_cases hg : clickGuard st r = true
        · simp only [step, hg, if_true] at hsel
          unfold handleToggleResource at hsel
          by_cases hc : st.selected.contains r.id
          · rw [if_pos hc] at hsel
            exact Or.inl (List.mem_of_mem_filter hsel)
          · rw [if_neg hc] at hsel
            rcases List.mem_append.mp hsel with hin | hin
            · exact Or.inl hin
            · have hi : id = r.id := by simpa using hin
              exact Or.inr ⟨[], r, rest, rfl, hi.symm, hg⟩
        · rw [Bool.not_eq_true] at hg
          simp only [step, hg, Bool.false_eq_true, if_false] at hsel
          exact Or.inl hsel
      | deleteSuccess d => exact Or.inl (List.mem_of_mem_filter hsel)
      | refreshStart d => exact Or.inl hsel
      | refreshEnd d => exact Or.inl hsel
      | deleteStart d => exact Or.inl hsel
      | deleteEnd d => exact Or.inl hsel
      | setResources data => exact Or.inl hsel
    · exact Or.inr ⟨e :: pre, r, post, by rw [hev]; rfl, hid, hg⟩

/-- A successful deletion removes the id from both the resource list and
the selection. -/
lemma deleteSuccess_removes (st : UIState) (id : String) :
    id ∉ (step st (UIEvent.deleteSuccess id)).selected
    ∧ ∀ r ∈ (step st (UIEvent.deleteSuccess id)).resources, r.id ≠ id := by
  constructor
  · intro h
    simp only [step] at h
    have hm := List.mem_filter.mp h
    simp at hm
  · intro r hr
    simp only [step] at hr
    have hm := List.mem_filter.mp hr
    simpa using hm.2

/-- Claim C9: the selection only ever contains ids added by toggling a
resource that was `ready` and not busy at the moment of selection, and a
successful deletion removes the id from both the resource list and the
selection, so a deleted resource id never remains selected. -/
theorem c9 (events : List UIEvent) (st : UIState) (id : String) :
    (id ∈ (run st events).selected →
      id ∈ st.selected
      ∨ ∃ pre r post, events = pre ++ UIEvent.clickResource r :: post
          ∧ r.id = id
          ∧ clickGuard (run st pre) r = true
          ∧ r.status = Status.ready
          ∧ isResourceBusy (run st pre).refreshingIds (run st pre).deletingIds r
              = false)
    ∧ (id ∉ (step st (UIEvent.deleteSuccess id)).selected
        ∧ ∀ r ∈ (step st (UIEvent.deleteSuccess id)).resources, r.id ≠ id) := by
  refine ⟨?_, deleteSuccess_removes st id⟩
  intro h
  rcases selected_provenance events st id h with h1 | ⟨pre, r, post, hev, hid, hg⟩
  · exact Or.inl h1
  · have hg' := hg
    simp only [clickGuard, Bool.and_eq_true, Bool.not_eq_true',
      decide_eq_true_eq] at hg'
    exact Or.inr ⟨pre, r, post, hev, hid, hg, hg'.1.2, hg'.2⟩

/-- Witness for C9: clicking the single ready resource selects it, and the
provenance produced by the theorem points at that click. -/
theorem c9_witness :
    "r1" ∈ (run ⟨[(⟨"r1", "p1", "u", "n", Status.ready, 3, none⟩ : Resource)],
        [], [], []⟩
        [UIEvent.clickResource ⟨"r1", "p1", "u", "n", Status.ready, 3, none⟩]).selected
    ∧ ("r1" ∈ ([] : List String)
      ∨ ∃ pre r post,
          [UIEvent.clickResource
              (⟨"r1", "p1", "u", "n", Status.ready, 3, none⟩ : Resource)]
            = pre ++ UIEvent.clickResource r :: post
          ∧ r.id = "r1"
          ∧ clickGuard
              (run ⟨[(⟨"r1", "p1", "u", "n", Status.ready, 3, none⟩ : Resource)],
                [], [], []⟩ pre) r = true
          ∧ r.status = Status.ready
          ∧ isResourceBusy
              (run ⟨[(⟨"r1", "p1", "u", "n", Status.ready, 3, none⟩ : Resource)],
                [], [], []⟩ pre).refreshingIds
              (run ⟨[(⟨"r1", "p1", "u", "n", Status.ready, 3, none⟩ : Resource)],
                [], [], []⟩ pre).deletingIds r = false) :=
  ⟨by decide,
    (c9 [UIEvent.clickResource ⟨"r1", "p1", "u", "n", Status.ready, 3, none⟩]
        ⟨[(⟨"r1", "p1", "u", "n", Status.ready, 3, none⟩ : Resource)], [], [], []⟩
        "r1").1 (by decide)⟩

/-- Claim C10: switching the current project resets the conversation and
the selection to empty (and deselecting all projects empties the resource
list), so the first chat request under the new project carries an empty
conversation history and no `resource_ids`. -/
theorem c10 (st : AppState) (p : Project) (content : String) :
    (onProjectChange st (some p)).messages = []
    ∧ (onProjectChange st (some p)).selectedResources = []
    ∧ (onProjectChange st none).resources = []
    ∧ (chatRequestOf (onProjectChange st (some p)) content).conversation_history
        = []
    ∧ (chatRequestOf (onProjectChange st (some p)) content).resource_ids
        = none :=
  ⟨rfl, rfl, rfl, rfl, rfl⟩

end RefBook
